import Mathlib

/-!
Shallow embedding of `src/agents/agent_bing.py` (class `BingSearchAgent`)
and verification of its specification.

The class has four operations: `get_guided_json` (a fixed schema descriptor),
`bing_search` (one HTTP GET per query, normalized into a result dictionary),
`format_search_results` (rendering of one result dictionary into text), and
`execute_tool` (batch dispatch over a worker pool, joining the rendered
outcomes with newlines).

HTTP is modelled by a `fetch` function from the built request to an outcome:
an HTTP-status error raised by `raise_for_status`, a `RequestException`, any
other exception, or a successfully parsed JSON body.  The worker pool is
modelled by a `completionOrder` list of indices: the order in which the
futures complete (in any real run, a permutation of the query indices).
-/

namespace MetaBing

/-- A sitelink record: a title/link pair nested under a primary hit. -/
structure Sitelink where
  title : String
  link : String
deriving DecidableEq, Repr

/-- One normalized search hit, as built by `bing_search`: the dictionary
with keys `query`, `title`, `link`, `sitelinks`. -/
structure SearchHit where
  query : String
  title : String
  link : String
  sitelinks : List Sitelink
deriving DecidableEq, Repr

/-- One item of the `webPages.value` array of the upstream JSON body;
the `name` and `url` members may be absent. -/
structure WebPageItem where
  name : Option String
  url : Option String
deriving DecidableEq, Repr

/-- The `webPages` member of the upstream JSON body; its `value` array
may be absent. -/
structure WebPages where
  value : Option (List WebPageItem)
deriving DecidableEq, Repr

/-- The upstream JSON body; the `webPages` member may be absent. -/
structure BingJson where
  webPages : Option WebPages
deriving DecidableEq, Repr

/-- Outcome of the HTTP GET performed inside `bing_search`:
`raise_for_status` raising `HTTPError` on a 4xx/5xx status, a network-level
`RequestException`, any other exception during fetch or JSON parsing, or a
successfully parsed body. -/
inductive FetchOutcome where
  | httpError (msg : String)
  | requestError (msg : String)
  | otherError (msg : String)
  | success (body : BingJson)
deriving DecidableEq, Repr

/-- The dictionary returned by `bing_search`: it carries either the key
`organic_results` (a list of hits) or the key `error` (a message string);
a `none` field models the key being absent. -/
structure SearchResults where
  organic_results : Option (List SearchHit)
  error : Option String
deriving DecidableEq, Repr

/-- The outbound GET request built by `bing_search`: endpoint URL, the
subscription-key header, and the `q`, `mkt`, `count` query parameters. -/
structure HttpRequest where
  endpoint : String
  api_key : String
  q : String
  mkt : String
  count : Nat
deriving DecidableEq, Repr

/-- The configuration fields of a `BingSearchAgent` instance. -/
structure BingAgent where
  name : String
  location : String
  api_key : String
  endpoint : String
deriving DecidableEq, Repr

/-- `BingSearchAgent.__init__`: stores the name, API key and endpoint, and
sets `self.location` to the default `"us"`. -/
def BingAgent.init (name api_key endpoint : String) : BingAgent :=
  { name := name, location := "us", api_key := api_key, endpoint := endpoint }

/-- A small JSON value model, used for the guided schema descriptor. -/
inductive Json where
  | str (s : String)
  | bool (b : Bool)
  | arr (xs : List Json)
  | obj (fields : List (String × Json))

/-- Lookup of a key in a JSON object (`none` on non-objects). -/
def Json.getField : Json → String → Option Json
  | .obj fields, k => (fields.find? (fun p => p.1 == k)).map Prod.snd
  | _, _ => none

/-- `BingSearchAgent.get_guided_json`: the fixed schema descriptor.  The
`state` argument is accepted (default `None` in the source) and unused. -/
def get_guided_json {σ : Type} (self : BingAgent) (state : Option σ) : Json :=
  Json.obj [
    ("type", .str "object"),
    ("properties", .obj [
      ("queries", .obj [
        ("type", .str "array"),
        ("items", .obj [
          ("type", .str "string"),
          ("description", .str "A search query string.")]),
        ("description", .str "A list of search query strings.")]),
      ("location", .obj [
        ("type", .str "string"),
        ("description", .str "The geographic location for the search results. Available locations: \x27us\x27, \x27gb\x27, \x27nl\x27, \x27ca\x27.")])]),
    ("required", .arr [.str "queries", .str "location"]),
    ("additionalProperties", .bool false)]

/-- The GET request `bing_search` builds for one query: the configured
endpoint and key, `q=<query>`, `mkt=<location>`, `count=10`. -/
def mkRequest (self : BingAgent) (location query : String) : HttpRequest :=
  { endpoint := self.endpoint, api_key := self.api_key,
    q := query, mkt := location, count := 10 }

/-- `BingSearchAgent.bing_search`: build the GET request, dispatch it through
`fetch` (the HTTP client), and normalize the response.  Every exception is
caught inside the method and returned under the `error` key; a successful
body with a `webPages.value` array is mapped item by item (title from `name`
defaulting to `"No Title"`, link from `url` defaulting to `"#"`, sitelinks
always empty); a successful body without that structure yields an empty
`organic_results` list. -/
def bing_search (self : BingAgent) (fetch : HttpRequest → FetchOutcome)
    (query : String) (location : String) : SearchResults :=
  match fetch (mkRequest self location query) with
  | .success results =>
      match results.webPages with
      | some wp =>
          match wp.value with
          | some items =>
              { organic_results := some (items.map fun item =>
                  { query := query
                    title := item.name.getD "No Title"
                    link := item.url.getD "#"
                    sitelinks := [] })
                error := none }
          | none => { organic_results := some [], error := none }
      | none => { organic_results := some [], error := none }
  | .httpError msg =>
      { organic_results := none, error := some ("HTTP error occurred: " ++ msg) }
  | .requestError msg =>
      { organic_results := none, error := some ("Request error occurred: " ++ msg) }
  | .otherError msg =>
      { organic_results := none, error := some msg }

/-- Python `"\n".join(...)`. -/
def joinLines : List String → String
  | [] => ""
  | [a] => a
  | a :: b :: rest => a ++ "\n" ++ joinLines (b :: rest)

/-- The 40-dash separator line appended after each rendered hit. -/
def divider : String := "----------------------------------------"

/-- The rendering of one hit inside `format_search_results`: the
`Query`/`Title`/`Link` lines, the sitelinks section (the single line
`Sitelinks: None` when the list is empty, else a `Sitelinks:` header and one
indented line per sitelink), then the divider line. -/
def formatResult (result : SearchHit) : String :=
  let base := "Query: " ++ result.query ++ "\nTitle: " ++ result.title
      ++ "\nLink: " ++ result.link
  let withSitelinks :=
    if result.sitelinks.isEmpty then
      base ++ "\nSitelinks: None"
    else
      base ++ "\nSitelinks:\n"
        ++ joinLines (result.sitelinks.map fun s => "    - " ++ s.title ++ ": " ++ s.link)
  withSitelinks ++ "\n" ++ divider

/-- `BingSearchAgent.format_search_results`: reads `organic_results`
(defaulting to the empty list when the key is absent, as with an error
dictionary) and joins the per-hit renderings with newlines.  Note that the
`error` key is never read. -/
def format_search_results (search_results : SearchResults) : String :=
  joinLines ((search_results.organic_results.getD []).map formatResult)

/-- One unit of work inside `execute_tool`: `future.result()` followed by
`format_search_results`.  `bing_search` catches every exception internally
and `format_search_results` is total on the dictionaries `bing_search`
returns, so the `except` branch of the collection loop (which would render
an `Error for query ...` entry) never fires. -/
def processQuery (self : BingAgent) (fetch : HttpRequest → FetchOutcome)
    (location : String) (query : String) : String :=
  format_search_results (bing_search self fetch query location)

/-- The `tool_response` dictionary passed to `execute_tool`; either key may
be absent. -/
structure ToolResponse where
  queries : Option (List String)
  location : Option String
deriving DecidableEq, Repr

/-- The entries collected by `execute_tool` from the worker pool, in
completion order: the i-th submitted future renders the i-th query. -/
def execute_tool_entries (self : BingAgent) (fetch : HttpRequest → FetchOutcome)
    (queries : List String) (location : String) (completionOrder : List Nat) : List String :=
  completionOrder.filterMap fun i =>
    (queries.get? i).map (processQuery self fetch location)

/-- `BingSearchAgent.execute_tool`, instrumented with the list of outbound
requests submitted to the worker pool (second component).  A missing or
empty `queries` field raises `ValueError` before anything is submitted;
otherwise every query is submitted with the same location (the request
field, defaulting to `self.location`), results are collected in completion
order and joined with newlines. -/
def execute_tool_instr (self : BingAgent) (fetch : HttpRequest → FetchOutcome)
    (tool_response : ToolResponse) (completionOrder : List Nat) :
    Except String String × List HttpRequest :=
  let queries := tool_response.queries.getD []
  let location := tool_response.location.getD self.location
  if queries.isEmpty then
    (.error "Search queries are missing from the tool response", [])
  else
    (.ok (joinLines (execute_tool_entries self fetch queries location completionOrder)),
     queries.map (mkRequest self location))

/-- `BingSearchAgent.execute_tool`: the combined report, or the raised
input-validation error. -/
def execute_tool (self : BingAgent) (fetch : HttpRequest → FetchOutcome)
    (tool_response : ToolResponse) (completionOrder : List Nat) : Except String String :=
  (execute_tool_instr self fetch tool_response completionOrder).1

/-- `execute_tool` in state-passing form over the agent fields: the method
reads `self.location` (and, through `bing_search`, `self.api_key` and
`self.endpoint`) and assigns to no field. -/
def execute_toolS (fetch : HttpRequest → FetchOutcome) (tool_response : ToolResponse)
    (completionOrder : List Nat) : StateM BingAgent (Except String String) := do
  let self ← get
  pure (execute_tool self fetch tool_response completionOrder)

/-! ## Spec-side rendering (for comparison with `format_search_results`)

`specBlockClaimed` follows the specification sentence literally: each block
has the lines `Query`, `Title`, `Link`, then `Sitelinks: None` when the
sitelinks are empty or one indented line per sitelink when non-empty,
followed by the divider line.  `specBlockHeader` additionally inserts the
`Sitelinks:` header line before the indented lines, which is what the code
emits. -/

/-- The lines of one block as the spec sentence enumerates them (no
`Sitelinks:` header line in the non-empty case). -/
def specBlockClaimed (hit : SearchHit) : List String :=
  ["Query: " ++ hit.query, "Title: " ++ hit.title, "Link: " ++ hit.link]
  ++ (if hit.sitelinks.isEmpty then ["Sitelinks: None"]
      else hit.sitelinks.map fun s => "    - " ++ s.title ++ ": " ++ s.link)
  ++ [divider]

/-- The lines of one block with a `Sitelinks:` header line before the
indented per-sitelink lines. -/
def specBlockHeader (hit : SearchHit) : List String :=
  ["Query: " ++ hit.query, "Title: " ++ hit.title, "Link: " ++ hit.link]
  ++ (if hit.sitelinks.isEmpty then ["Sitelinks: None"]
      else "Sitelinks:" :: (hit.sitelinks.map fun s => "    - " ++ s.title ++ ": " ++ s.link))
  ++ [divider]

/-- Spec-side report: one block per hit, in order, blocks joined with
newlines (each block itself a newline-join of its lines). -/
def specRenderClaimed (hits : List SearchHit) : String :=
  joinLines (hits.map fun h => joinLines (specBlockClaimed h))

/-- Spec-side report with the `Sitelinks:` header line in non-empty blocks. -/
def specRenderHeader (hits : List SearchHit) : String :=
  joinLines (hits.map fun h => joinLines (specBlockHeader h))

/-! ## Helper lemmas -/

theorem joinLines_cons (a : String) (l : List String) (h : l ≠ []) :
    joinLines (a :: l) = a ++ "\n" ++ joinLines l := by
  cases l with
  | nil => exact absurd rfl h
  | cons b rest => rfl

theorem joinLines_cons_append_singleton (a d : String) (xs : List String) :
    joinLines (a :: (xs ++ [d])) = joinLines (a :: xs) ++ "\n" ++ d := by
  induction xs generalizing a with
  | nil => rfl
  | cons b rest ih =>
    rw [show (a :: ((b :: rest) ++ [d])) = a :: b :: (rest ++ [d]) from rfl,
      joinLines_cons a (b :: (rest ++ [d])) (by simp),
      ih b, joinLines_cons a (b :: rest) (by simp)]
    apply String.ext
    simp [String.data_append]

theorem length_filterMap_of_isSome {α β : Type} (f : α → Option β) (l : List α)
    (h : ∀ a ∈ l, (f a).isSome) : (l.filterMap f).length = l.length := by
  induction l with
  | nil => rfl
  | cons a rest ih =>
    rcases ho : f a with _ | b
    · have := h a (by simp)
      rw [ho] at this
      simp at this
    · rw [List.filterMap_cons_some ho, List.length_cons, List.length_cons,
        ih (fun x hx => h x (by simp [hx]))]

/-- The rendering the code produces for one hit equals the newline-join of
the block lines with the `Sitelinks:` header. -/
theorem formatResult_eq_specBlockHeader (hit : SearchHit) :
    formatResult hit = joinLines (specBlockHeader hit) := by
  rcases hs : hit.sitelinks with _ | ⟨s, ss⟩
  · simp only [formatResult, specBlockHeader, hs, List.isEmpty_nil, if_true,
      List.append_assoc, List.singleton_append, List.cons_append, List.nil_append,
      joinLines]
    apply String.ext
    simp [String.data_append]
  · simp only [formatResult, specBlockHeader, hs, List.isEmpty_cons, if_false,
      Bool.false_eq_true, List.append_assoc, List.singleton_append, List.cons_append,
      List.nil_append, List.map_cons]
    rw [joinLines_cons ("Query: " ++ hit.query) _ (by simp),
      joinLines_cons ("Title: " ++ hit.title) _ (by simp),
      joinLines_cons ("Link: " ++ hit.link) _ (by simp),
      joinLines_cons "Sitelinks:" _ (by simp),
      joinLines_cons_append_singleton ("    - " ++ s.title ++ ": " ++ s.link) divider]
    apply String.ext
    simp [String.data_append]

/-- A stubbed HTTP client: every request succeeds with a body that has no
`webPages` member. -/
def stubFetch : HttpRequest → FetchOutcome := fun _ => .success { webPages := none }

/-! ## Claims -/

/-- C1: the specification states that a query whose fetch fails yields a
one-line `Error for query ...` entry in the combined report.  The code does
not do this: `bing_search` catches the failure and returns a dictionary
carrying only the `error` key, and `format_search_results` reads only
`organic_results`, so the failed query renders as the empty string and the
error message is silently dropped.  Concretely, for a single query `"test"`
whose fetch raises an HTTP 401 error, `bing_search` records the error
message, yet the combined report is the empty string and contains no error
entry. -/
theorem claim_C1_error_entry_dropped :
    (bing_search (BingAgent.init "TestBingAgent" "key" "endpoint")
        (fun _ => .httpError "401 Client Error: Access Denied") "test" "us").error
      = some "HTTP error occurred: 401 Client Error: Access Denied"
    ∧ execute_tool (BingAgent.init "TestBingAgent" "key" "endpoint")
        (fun _ => .httpError "401 Client Error: Access Denied")
        { queries := some ["test"], location := none } [0] = .ok "" := by
  exact ⟨rfl, rfl⟩

/-- C2: for every non-empty query list, `execute_tool` submits one future
per query and collects exactly one rendered entry per completed future, so
for any completion order (a permutation of the query indices) the number of
entries joined into the report equals the number of submitted queries. -/
theorem claim_C2_one_entry_per_query (self : BingAgent) (fetch : HttpRequest → FetchOutcome)
    (tr : ToolResponse) (qs : List String) (order : List Nat)
    (hq : tr.queries = some qs) (hne : qs ≠ [])
    (hperm : order.Perm (List.range qs.length)) :
    (execute_tool_entries self fetch qs (tr.location.getD self.location) order).length
        = qs.length
    ∧ execute_tool self fetch tr order
        = .ok (joinLines
            (execute_tool_entries self fetch qs (tr.location.getD self.location) order)) := by
  have hmem : ∀ i ∈ order, i < qs.length := by
    intro i hi
    simpa [List.mem_range] using hperm.mem_iff.mp hi
  constructor
  · rw [execute_tool_entries,
      length_filterMap_of_isSome _ order ?_, hperm.length_eq, List.length_range]
    intro i hi
    rw [List.get?_eq_get (hmem i hi)]
    rfl
  · have he : qs.isEmpty = false := by simp [List.isEmpty_iff, hne]
    simp [execute_tool, execute_tool_instr, hq, he]

/-- Witness for C2 at a concrete batch of two queries completing in reverse
order. -/
theorem claim_C2_witness :
    (["alpha", "beta"] ≠ []) ∧ ([1, 0].Perm (List.range 2))
    ∧ (execute_tool_entries (BingAgent.init "A" "k" "e") stubFetch
        ["alpha", "beta"] "us" [1, 0]).length = 2
    ∧ execute_tool (BingAgent.init "A" "k" "e") stubFetch
        { queries := some ["alpha", "beta"], location := none } [1, 0]
      = .ok (joinLines (execute_tool_entries (BingAgent.init "A" "k" "e") stubFetch
          ["alpha", "beta"] "us" [1, 0])) := by
  refine ⟨by decide, by decide, ?_⟩
  exact claim_C2_one_entry_per_query (BingAgent.init "A" "k" "e") stubFetch
    { queries := some ["alpha", "beta"], location := none } ["alpha", "beta"] [1, 0]
    rfl (by decide) (by decide)

/-- C3: a missing or empty `queries` field makes `execute_tool` raise the
`ValueError` before anything is submitted to the worker pool (zero outbound
requests), and for every non-empty query list the call returns normally
with a report (the validation failure is the only propagating failure). -/
theorem claim_C3_validation_before_network (self : BingAgent)
    (fetch : HttpRequest → FetchOutcome) (tr : ToolResponse) (order : List Nat) :
    (tr.queries.getD [] = [] →
      execute_tool_instr self fetch tr order
        = (.error "Search queries are missing from the tool response", []))
    ∧ (tr.queries.getD [] ≠ [] →
        ∃ report, execute_tool_instr self fetch tr order
          = (.ok report,
             (tr.queries.getD []).map (mkRequest self (tr.location.getD self.location)))) := by
  constructor
  · intro h
    simp [execute_tool_instr, h]
  · intro h
    have he : (tr.queries.getD []).isEmpty = false := by simp [List.isEmpty_iff, h]
    refine ⟨joinLines (execute_tool_entries self fetch (tr.queries.getD [])
      (tr.location.getD self.location) order), ?_⟩
    simp [execute_tool_instr, he]

/-- Witness for C3: a request with no `queries` field raises with zero
outbound requests; a one-query request returns normally. -/
theorem claim_C3_witness :
    execute_tool_instr (BingAgent.init "A" "k" "e") stubFetch
        { queries := none, location := none } []
      = (.error "Search queries are missing from the tool response", [])
    ∧ ∃ report, execute_tool_instr (BingAgent.init "A" "k" "e") stubFetch
        { queries := some ["q1"], location := none } [0]
      = (.ok report, [mkRequest (BingAgent.init "A" "k" "e") "us" "q1"]) := by
  exact ⟨(claim_C3_validation_before_network (BingAgent.init "A" "k" "e") stubFetch
      { queries := none, location := none } []).1 rfl,
    (claim_C3_validation_before_network (BingAgent.init "A" "k" "e") stubFetch
      { queries := some ["q1"], location := none } [0]).2 (by decide)⟩

/-- C4: on a successful response, `bing_search` maps each `webPages.value`
item to a hit (title from `name` defaulting to `No Title`, link from `url`
defaulting to `#`, sitelinks always empty, in order), and a successful
response without the `webPages.value` structure yields the empty hit list
rather than an error outcome. -/
theorem claim_C4_success_normalization (self : BingAgent) (query location : String)
    (body : BingJson) :
    (∀ items, body.webPages.bind WebPages.value = some items →
      ∃ hits,
        bing_search self (fun _ => .success body) query location
          = { organic_results := some hits, error := none }
        ∧ hits.length = items.length
        ∧ ∀ i item, items.get? i = some item →
            hits.get? i = some { query := query,
                                 title := item.name.getD "No Title",
                                 link := item.url.getD "#",
                                 sitelinks := [] })
    ∧ (body.webPages.bind WebPages.value = none →
        bing_search self (fun _ => .success body) query location
          = { organic_results := some [], error := none }) := by
  constructor
  · intro items h
    rcases body with ⟨_ | ⟨_ | items'⟩⟩
    · simp at h
    · simp at h
    · simp only [Option.some_bind] at h
      injection h with h
      subst h
      refine ⟨_, rfl, by simp, ?_⟩
      intro i item hi
      rw [List.get?_map, hi]
      rfl
  · intro h
    rcases body with ⟨_ | ⟨_ | items'⟩⟩
    · rfl
    · rfl
    · simp only [Option.some_bind] at h
      cases h

/-- Witness for C4 at a body with two items (one lacking `url`, one lacking
`name`) and at a body with no `webPages` member. -/
theorem claim_C4_witness :
    (∃ hits,
      bing_search (BingAgent.init "A" "k" "e")
          (fun _ => .success ⟨some ⟨some [⟨some "A", none⟩, ⟨none, some "b"⟩]⟩⟩) "q" "us"
        = { organic_results := some hits, error := none }
      ∧ hits.length = ([⟨some "A", none⟩, ⟨none, some "b"⟩] : List WebPageItem).length
      ∧ ∀ i item, ([⟨some "A", none⟩, ⟨none, some "b"⟩] : List WebPageItem).get? i = some item →
          hits.get? i = some { query := "q",
                               title := item.name.getD "No Title",
                               link := item.url.getD "#",
                               sitelinks := [] })
    ∧ bing_search (BingAgent.init "A" "k" "e") (fun _ => .success ⟨none⟩) "q" "us"
        = { organic_results := some [], error := none } := by
  exact ⟨(claim_C4_success_normalization (BingAgent.init "A" "k" "e") "q" "us"
      ⟨some ⟨some [⟨some "A", none⟩, ⟨none, some "b"⟩]⟩⟩).1 _ rfl,
    (claim_C4_success_normalization (BingAgent.init "A" "k" "e") "q" "us" ⟨none⟩).2 rfl⟩

/-- C5 counterexample: the claim enumerates the lines of a block as Query,
Title, Link, then one indented line per sitelink when the sitelinks are
non-empty, then the divider.  The code additionally emits a `Sitelinks:`
header line before the indented lines, so for a hit with one sitelink the
actual rendering differs from the claimed one. -/
theorem claim_C5_counterexample :
    format_search_results
        { organic_results := some [{ query := "q", title := "T", link := "L",
                                     sitelinks := [{ title := "S", link := "l" }] }],
          error := none }
      ≠ specRenderClaimed [{ query := "q", title := "T", link := "L",
                             sitelinks := [{ title := "S", link := "l" }] }] := by
  decide

/-- C5 (amended): `format_search_results` renders one block per hit, in
order, blocks joined with newlines; each block has the lines Query, Title,
Link, then `Sitelinks: None` when the sitelinks are empty or a `Sitelinks:`
header line followed by one indented `    - <title>: <link>` line per
sitelink when non-empty, followed by the 40-dash divider line. -/
theorem claim_C5_block_rendering (hits : List SearchHit) :
    format_search_results { organic_results := some hits, error := none }
      = specRenderHeader hits := by
  simp only [format_search_results, specRenderHeader, Option.getD_some]
  have : formatResult = fun h => joinLines (specBlockHeader h) :=
    funext formatResult_eq_specBlockHeader
  rw [this]

/-- C6: the guided schema descriptor is a fixed object schema declaring
exactly the two properties `queries` (an array of strings) and `location`
(a string), both required, with additional properties disallowed, and it is
the same value whatever state argument is passed. -/
theorem claim_C6_schema_descriptor {σ : Type} (self : BingAgent) (s1 s2 : Option σ) :
    get_guided_json self s1 = get_guided_json self s2
    ∧ (get_guided_json self s1).getField "type" = some (.str "object")
    ∧ (∃ props, (get_guided_json self s1).getField "properties" = some (.obj props)
        ∧ props.map Prod.fst = ["queries", "location"])
    ∧ (((get_guided_json self s1).getField "properties").bind
        (fun p => p.getField "queries")).bind (fun q => q.getField "type")
        = some (.str "array")
    ∧ ((((get_guided_json self s1).getField "properties").bind
        (fun p => p.getField "queries")).bind (fun q => q.getField "items")).bind
        (fun i => i.getField "type") = some (.str "string")
    ∧ (((get_guided_json self s1).getField "properties").bind
        (fun p => p.getField "location")).bind (fun l => l.getField "type")
        = some (.str "string")
    ∧ (get_guided_json self s1).getField "required"
        = some (.arr [.str "queries", .str "location"])
    ∧ (get_guided_json self s1).getField "additionalProperties" = some (.bool false) := by
  exact ⟨rfl, rfl, ⟨_, rfl, rfl⟩, rfl, rfl, rfl, rfl, rfl⟩

/-- C7: a request without a `location` field searches every query with the
default location `"us"` stored by `__init__`; a request with a `location`
value searches every query with that value. -/
theorem claim_C7_location_defaulting (name key ep : String)
    (fetch : HttpRequest → FetchOutcome) (tr : ToolResponse) (order : List Nat) :
    (tr.location = none →
      ∀ r ∈ (execute_tool_instr (BingAgent.init name key ep) fetch tr order).2, r.mkt = "us")
    ∧ (∀ loc, tr.location = some loc →
        ∀ r ∈ (execute_tool_instr (BingAgent.init name key ep) fetch tr order).2,
          r.mkt = loc) := by
  constructor
  · intro h r hr
    cases he : (tr.queries.getD []).isEmpty
    · simp only [execute_tool_instr, he, if_false, Bool.false_eq_true] at hr
      simp only [List.mem_map] at hr
      obtain ⟨q, _, rfl⟩ := hr
      simp [mkRequest, h, BingAgent.init]
    · simp [execute_tool_instr, he] at hr
  · intro loc h r hr
    cases he : (tr.queries.getD []).isEmpty
    · simp only [execute_tool_instr, he, if_false, Bool.false_eq_true] at hr
      simp only [List.mem_map] at hr
      obtain ⟨q, _, rfl⟩ := hr
      simp [mkRequest, h, BingAgent.init]
    · simp [execute_tool_instr, he] at hr

/-- Witness for C7: one request omitting `location` (searched with `"us"`)
and one supplying `"gb"` (searched with `"gb"`). -/
theorem claim_C7_witness :
    (∀ r ∈ (execute_tool_instr (BingAgent.init "A" "k" "e") stubFetch
        { queries := some ["q1"], location := none } [0]).2, r.mkt = "us")
    ∧ (∀ r ∈ (execute_tool_instr (BingAgent.init "A" "k" "e") stubFetch
        { queries := some ["q1"], location := some "gb" } [0]).2, r.mkt = "gb") := by
  exact ⟨(claim_C7_location_defaulting "A" "k" "e" stubFetch
      { queries := some ["q1"], location := none } [0]).1 rfl,
    (claim_C7_location_defaulting "A" "k" "e" stubFetch
      { queries := some ["q1"], location := some "gb" } [0]).2 "gb" rfl⟩

/-- C8: a query whose successful response lacks the `webPages.value`
structure yields the empty hit list, and its rendered entry in the combined
report is the empty string (no block lines, no error line). -/
theorem claim_C8_empty_rendering (self : BingAgent) (query location : String)
    (body : BingJson) (h : body.webPages.bind WebPages.value = none) :
    bing_search self (fun _ => .success body) query location
      = { organic_results := some [], error := none }
    ∧ processQuery self (fun _ => .success body) location query = "" := by
  rcases body with ⟨_ | ⟨_ | items⟩⟩
  · exact ⟨rfl, rfl⟩
  · exact ⟨rfl, rfl⟩
  · simp only [Option.some_bind] at h
    cases h

/-- Witness for C8 at a body whose `webPages` member has no `value` array. -/
theorem claim_C8_witness :
    bing_search (BingAgent.init "A" "k" "e") (fun _ => .success ⟨some ⟨none⟩⟩) "q" "us"
      = { organic_results := some [], error := none }
    ∧ processQuery (BingAgent.init "A" "k" "e") (fun _ => .success ⟨some ⟨none⟩⟩) "us" "q"
      = "" := by
  exact claim_C8_empty_rendering (BingAgent.init "A" "k" "e") "q" "us" ⟨some ⟨none⟩⟩ rfl

/-- C9: `execute_tool` only reads the agent fields; run in state-passing
form it returns the same result as the pure function and leaves every
configuration field (name, location, api_key, endpoint) unchanged. -/
theorem claim_C9_agent_unchanged (a : BingAgent) (fetch : HttpRequest → FetchOutcome)
    (tr : ToolResponse) (order : List Nat) :
    (execute_toolS fetch tr order).run a = (execute_tool a fetch tr order, a)
    ∧ ((execute_toolS fetch tr order).run a).2.name = a.name
    ∧ ((execute_toolS fetch tr order).run a).2.location = a.location
    ∧ ((execute_toolS fetch tr order).run a).2.api_key = a.api_key
    ∧ ((execute_toolS fetch tr order).run a).2.endpoint = a.endpoint := by
  exact ⟨rfl, rfl, rfl, rfl, rfl⟩

/-- C10: `bing_search` is total on every fetch outcome (every exception is
caught inside the method) and its returned dictionary carries exactly one
of the keys `organic_results` and `error`. -/
theorem claim_C10_exactly_one_key (self : BingAgent) (fetch : HttpRequest → FetchOutcome)
    (query location : String) :
    ((bing_search self fetch query location).organic_results.isSome = true
      ∧ (bing_search self fetch query location).error = none)
    ∨ ((bing_search self fetch query location).organic_results = none
      ∧ (bing_search self fetch query location).error.isSome = true) := by
  rcases hf : fetch (mkRequest self location query) with msg | msg | msg | body
  · right; simp [bing_search, hf]
  · right; simp [bing_search, hf]
  · right; simp [bing_search, hf]
  · left
    rcases body with ⟨_ | ⟨_ | items⟩⟩ <;> simp [bing_search, hf]

end MetaBing
